import Mathlib

/-!
Verification of the startup/shutdown lifecycle coordinator in `src/wiki.py`
(the FastAPI `lifespan` context manager, the detached `initialize_graphiti`
supervisor task, and the environment-flag reads that drive them).

The embedding models the Python code as a trace of observable events.
Straight-line Python code becomes a `Frag`: the list of events it emits
plus an optional exception escaping it (statements after a raise do not
run, and `try/except Exception` is the `pyTry` combinator).  External
collaborators that are not part of `src/` (`graphiti_init`,
`start_sync_scheduler`, `stop_sync_scheduler`) are parameterised by their
behaviour: return normally, raise an exception, or (for the initializer)
never return.
-/

/-- Observable events of the lifecycle coordinator: log lines, the spawn of
the detached background task (`asyncio.create_task`, wiki.py line 56), the
actual call of the external initializer inside that task (wiki.py line 85),
and the scheduler gateway calls (wiki.py lines 65 and 77). -/
inductive Ev where
  | logInfo (msg : String)
  | logWarning (msg : String)
  | logError (msg : String)
  | spawnInit (loadInitialData : Bool) (syncMode : String)
  | callGraphitiInit (loadInitialData : Bool) (syncMode : String)
  | callStart
  | callStop
  deriving DecidableEq

/-- The environment variables read by `lifespan` (wiki.py lines 52, 53, 62).
`none` models an unset variable. -/
structure Env where
  LOAD_INITIAL_DATA : Option String
  SYNC_MODE : Option String
  ENABLE_SYNC_SCHEDULER : Option String
  deriving DecidableEq

/-- Python `os.getenv(key, default)`: the value when set, else the default. -/
def getenv (v : Option String) (default : String) : String :=
  v.getD default

/-- Python `str.lower()`: lowercase each character (ASCII case mapping,
which is all the comparisons against "true" ever exercise). -/
def pyLower (s : String) : String :=
  ⟨s.data.map Char.toLower⟩

/-- wiki.py line 52: `os.getenv("LOAD_INITIAL_DATA", "false").lower() == "true"`. -/
def load_initial_data (env : Env) : Bool :=
  pyLower (getenv env.LOAD_INITIAL_DATA "false") == "true"

/-- wiki.py line 53: `os.getenv("SYNC_MODE", "initial")` (no validation). -/
def sync_mode (env : Env) : String :=
  getenv env.SYNC_MODE "initial"

/-- wiki.py line 62: `os.getenv("ENABLE_SYNC_SCHEDULER", "false").lower() == "true"`. -/
def enable_sync_scheduler (env : Env) : Bool :=
  pyLower (getenv env.ENABLE_SYNC_SCHEDULER "false") == "true"

/-- The `settings` object from `src.config` (not under `src/`); only the
fields the lifespan logs on lines 37-46.  Optional string settings are
modelled as strings where the empty string is Python-falsy. -/
structure Settings where
  ALLOWED_ORIGINS : String
  DOCS_ENABLED : Bool
  API_KEY : String
  OPENAI_API_BASE : String
  OPENAI_API_KEY : String
  OPENAI_MODEL : String

/-- Python `str(bool)` as used by f-string interpolation of a bool. -/
def pyStr (b : Bool) : String := if b then "True" else "False"

/-- The startup banner, wiki.py lines 35-46: pure logging, cannot raise. -/
def bannerEvents (s : Settings) : List Ev :=
  [Ev.logInfo "Starting up FWTX NextGen Wiki API",
   Ev.logInfo "--- Application Settings ---",
   Ev.logInfo ("Allowed Origins: " ++
     (if s.ALLOWED_ORIGINS ≠ "" then s.ALLOWED_ORIGINS
      else "[Not Set - Allowing all by default in middleware]")),
   Ev.logInfo ("Docs Enabled: " ++ pyStr s.DOCS_ENABLED),
   Ev.logInfo ("API Key: " ++
     (if s.API_KEY ≠ "" then "Set" else "Not Set - Authentication Disabled")),
   Ev.logInfo ("OpenAI API Base: " ++ s.OPENAI_API_BASE),
   Ev.logInfo ("OpenAI API Key: " ++
     (if s.OPENAI_API_KEY ≠ "" then "Set" else "Not Set")),
   Ev.logInfo ("OpenAI Model: " ++ s.OPENAI_MODEL),
   Ev.logInfo "--------------------------"] ++
  (if s.API_KEY = "" then
     [Ev.logWarning "API_KEY not set in environment. Authentication is disabled."]
   else [])

/-- Behaviour of an external synchronous call: it returns normally or
raises a Python exception carrying a message. -/
inductive CallResult where
  | ok
  | raises (e : String)
  deriving DecidableEq

/-- Behaviour of the external `graphiti_init` coroutine (from
`src.services.graphiti.index`, not under `src/`): it may complete, raise,
or suspend forever (never return). -/
inductive InitBeh where
  | ok
  | raises (e : String)
  | neverReturns
  deriving DecidableEq

/-- One process run's collaborator behaviours: the initializer coroutine,
`start_sync_scheduler`, and `stop_sync_scheduler`. -/
structure Collabs where
  initBeh : InitBeh
  startBeh : CallResult
  stopBeh : CallResult
  deriving DecidableEq

/-- A fragment of straight-line Python code: the events it emitted and the
exception escaping it, if any.  Statements after a raise do not execute. -/
structure Frag where
  events : List Ev
  exn : Option String
  deriving DecidableEq

/-- A single non-raising statement (a log line, or `asyncio.create_task`,
which schedules the task and returns immediately without running it). -/
def emit (e : Ev) : Frag := ⟨[e], none⟩

/-- The empty fragment (no statement). -/
def Frag.nil : Frag := ⟨[], none⟩

/-- Sequential composition: if the first fragment raised, the second does
not run and the exception keeps propagating. -/
def Frag.seq (a b : Frag) : Frag :=
  match a.exn with
  | some _ => a
  | none => ⟨a.events ++ b.events, b.exn⟩

/-- An external call observable as event `ev`, which raises iff its
behaviour says so. -/
def extCall (ev : Ev) (beh : CallResult) : Frag :=
  ⟨[ev], match beh with | CallResult.ok => none | CallResult.raises e => some e⟩

/-- Python `try: body except Exception as e: handler(e)`: events of the
body up to the raise are kept, the exception is consumed by the handler. -/
def pyTry (body : Frag) (handler : String → Frag) : Frag :=
  match body.exn with
  | none => body
  | some e => ⟨body.events ++ (handler e).events, (handler e).exn⟩

/-- The Graphiti startup block, wiki.py lines 49-59: read the two flags,
spawn `initialize_graphiti` as a detached task (the spawn does not run or
await the task), log; any exception is caught and logged.  Reading an
environment variable and `asyncio.create_task` cannot raise, so the body
is exception-free by construction. -/
def graphitiStartupFrag (env : Env) : Frag :=
  pyTry
    ((emit (Ev.logInfo "Initializing Graphiti knowledge graph...")).seq
     ((emit (Ev.spawnInit (load_initial_data env) (sync_mode env))).seq
      (emit (Ev.logInfo
        ("Graphiti initialization started in background (mode: " ++
         sync_mode env ++ ")")))))
    (fun e => emit (Ev.logError ("Failed to start Graphiti initialization: " ++ e)))

/-- The scheduler startup block, wiki.py lines 61-68: only when the
ENABLE_SYNC_SCHEDULER flag parses true, call `start_sync_scheduler()`
inside try/except; a raise is caught and logged. -/
def schedulerStartupFrag (env : Env) (startBeh : CallResult) : Frag :=
  if enable_sync_scheduler env then
    pyTry
      ((emit (Ev.logInfo "Starting data sync scheduler...")).seq
       ((extCall Ev.callStart startBeh).seq
        (emit (Ev.logInfo "Data sync scheduler started"))))
      (fun e => emit (Ev.logError ("Failed to start sync scheduler: " ++ e)))
  else Frag.nil

/-- Everything `lifespan` runs before `yield` (wiki.py lines 34-68).  The
`yield` on line 70 is the serving-ready point: it is reached iff this
fragment's exception channel is empty. -/
def startupFrag (s : Settings) (env : Env) (c : Collabs) : Frag :=
  (⟨bannerEvents s, none⟩ : Frag).seq
  ((graphitiStartupFrag env).seq
   (schedulerStartupFrag env c.startBeh))

/-- Everything `lifespan` runs after `yield` (wiki.py lines 72-79): log,
then `stop_sync_scheduler()` inside try/except; a raise is caught and
logged. -/
def shutdownFrag (c : Collabs) : Frag :=
  (emit (Ev.logInfo "Shutting down FWTX Wiki API")).seq
  (pyTry (extCall Ev.callStop c.stopBeh)
    (fun e => emit (Ev.logError ("Error stopping sync scheduler: " ++ e))))

/-- A full process lifetime on the main control path: startup, then (if
startup reached the yield) shutdown.  An exception before the yield would
skip the shutdown block, which `Frag.seq` models. -/
def processFrag (s : Settings) (env : Env) (c : Collabs) : Frag :=
  (startupFrag s env c).seq (shutdownFrag c)

/-- The run of the detached task body up to and including the external
`graphiti_init` call (wiki.py line 85): the call event always happens;
`completed = false` models a coroutine that suspends forever. -/
structure TaskRun where
  events : List Ev
  completed : Bool
  exn : Option String
  deriving DecidableEq

/-- The awaited external call `graphiti_init(load_initial_data_flag=...,
sync_mode=...)` on wiki.py line 85, with its behaviour as parameter. -/
def graphiti_init_call (load : Bool) (mode : String) (beh : InitBeh) : TaskRun :=
  match beh with
  | InitBeh.ok => ⟨[Ev.callGraphitiInit load mode], true, none⟩
  | InitBeh.raises e => ⟨[Ev.callGraphitiInit load mode], true, some e⟩
  | InitBeh.neverReturns => ⟨[Ev.callGraphitiInit load mode], false, none⟩

/-- The supervisor task body `initialize_graphiti`, wiki.py lines 82-94:
await `graphiti_init`, log success (plus the initial-data line when the
flag is set), and catch any `Exception`, logging it; nothing is retried
and no exception escapes the `try/except`. -/
def initialize_graphiti (load : Bool) (mode : String) (beh : InitBeh) : TaskRun :=
  let g := graphiti_init_call load mode beh
  if g.completed then
    match g.exn with
    | none =>
        ⟨g.events ++
          [Ev.logInfo "Graphiti initialization completed successfully"] ++
          (if load then
             [Ev.logInfo ("Initial data loaded using " ++ mode ++ " mode")]
           else []),
         true, none⟩
    | some e =>
        ⟨g.events ++ [Ev.logError ("Graphiti initialization failed: " ++ e)],
         true, none⟩
  else g

/-- All events of one process lifetime: the main control path plus the
events of the single detached task it spawned (the interleaving does not
matter for occurrence counts). -/
def fullTrace (s : Settings) (env : Env) (c : Collabs) : List Ev :=
  (processFrag s env c).events ++
  (initialize_graphiti (load_initial_data env) (sync_mode env) c.initBeh).events

/-- Resuming the lifespan generator past the yield: the post-yield code of
an async generator runs exactly once; once the generator is exhausted
(`finished`), a further resume finds it already stopped and is a no-op. -/
def triggerShutdown (c : Collabs) (finished : Bool) : Bool × List Ev :=
  if finished then (true, []) else (true, (shutdownFrag c).events)

/-- Count of events satisfying a predicate. -/
def evCount (p : Ev → Bool) : List Ev → Nat
  | [] => 0
  | e :: es => (if p e then 1 else 0) + evCount p es

/-- Recogniser for the detached-task spawn event. -/
def isSpawnInit : Ev → Bool
  | Ev.spawnInit _ _ => true
  | _ => false

/-- Recogniser for the external initializer call event. -/
def isCallInit : Ev → Bool
  | Ev.callGraphitiInit _ _ => true
  | _ => false

/-- Recogniser for the scheduler start call event. -/
def isCallStart : Ev → Bool
  | Ev.callStart => true
  | _ => false

/-- Recogniser for the scheduler stop call event. -/
def isCallStop : Ev → Bool
  | Ev.callStop => true
  | _ => false

/-- Case-insensitive equality with a literal, as the spec words it for the
boolean flags: both sides lowercased and compared. -/
def eqCaseInsensitive (a b : String) : Bool :=
  pyLower a == pyLower b

/-! ## Helper lemmas (shared across claims) -/

lemma evCount_append (p : Ev → Bool) (a b : List Ev) :
    evCount p (a ++ b) = evCount p a + evCount p b := by
  induction a with
  | nil => simp [evCount]
  | cons x xs ih => simp [evCount, ih]; omega

lemma evCount_banner_zero (p : Ev → Bool) (s : Settings)
    (h1 : ∀ m, p (Ev.logInfo m) = false)
    (h2 : ∀ m, p (Ev.logWarning m) = false) :
    evCount p (bannerEvents s) = 0 := by
  rw [bannerEvents, evCount_append]
  have hif : evCount p
      (if s.API_KEY = "" then
        [Ev.logWarning "API_KEY not set in environment. Authentication is disabled."]
       else []) = 0 := by
    split <;> simp [evCount, h2]
  simp [evCount, h1, hif]

lemma Frag.seq_events (a b : Frag) (h : a.exn = none) :
    (a.seq b).events = a.events ++ b.events := by
  simp [Frag.seq, h]

lemma Frag.seq_exn (a b : Frag) (h : a.exn = none) :
    (a.seq b).exn = b.exn := by
  simp [Frag.seq, h]

lemma graphitiStartupFrag_eq (env : Env) :
    graphitiStartupFrag env =
      ⟨[Ev.logInfo "Initializing Graphiti knowledge graph...",
        Ev.spawnInit (load_initial_data env) (sync_mode env),
        Ev.logInfo ("Graphiti initialization started in background (mode: " ++
          sync_mode env ++ ")")], none⟩ := by
  simp [graphitiStartupFrag, pyTry, Frag.seq, emit]

lemma schedulerStartupFrag_exn (env : Env) (sb : CallResult) :
    (schedulerStartupFrag env sb).exn = none := by
  cases sb <;>
    simp [schedulerStartupFrag, pyTry, Frag.seq, emit, extCall, Frag.nil] <;>
    split <;> simp

lemma startupFrag_exn (s : Settings) (env : Env) (c : Collabs) :
    (startupFrag s env c).exn = none := by
  rw [startupFrag, Frag.seq_exn _ _ rfl,
    Frag.seq_exn _ _ (by rw [graphitiStartupFrag_eq])]
  exact schedulerStartupFrag_exn env c.startBeh

lemma shutdownFrag_eq_ok (c : Collabs) (h : c.stopBeh = CallResult.ok) :
    shutdownFrag c =
      ⟨[Ev.logInfo "Shutting down FWTX Wiki API", Ev.callStop], none⟩ := by
  simp [shutdownFrag, pyTry, Frag.seq, emit, extCall, h]

lemma shutdownFrag_eq_raises (c : Collabs) (e : String)
    (h : c.stopBeh = CallResult.raises e) :
    shutdownFrag c =
      ⟨[Ev.logInfo "Shutting down FWTX Wiki API", Ev.callStop,
        Ev.logError ("Error stopping sync scheduler: " ++ e)], none⟩ := by
  simp [shutdownFrag, pyTry, Frag.seq, emit, extCall, h]

lemma shutdownFrag_exn (c : Collabs) : (shutdownFrag c).exn = none := by
  cases h : c.stopBeh with
  | ok => rw [shutdownFrag_eq_ok c h]
  | raises e => rw [shutdownFrag_eq_raises c e h]

lemma initialize_graphiti_exn (load : Bool) (mode : String) (beh : InitBeh) :
    (initialize_graphiti load mode beh).exn = none := by
  cases beh <;> cases load <;>
    simp [initialize_graphiti, graphiti_init_call]

lemma processFrag_events (s : Settings) (env : Env) (c : Collabs) :
    (processFrag s env c).events =
      (startupFrag s env c).events ++ (shutdownFrag c).events := by
  simp [processFrag, Frag.seq, startupFrag_exn]

lemma startupFrag_events (s : Settings) (env : Env) (c : Collabs) :
    (startupFrag s env c).events =
      bannerEvents s ++ ((graphitiStartupFrag env).events ++
      (schedulerStartupFrag env c.startBeh).events) := by
  rw [startupFrag, Frag.seq_events _ _ rfl,
    Frag.seq_events _ _ (by rw [graphitiStartupFrag_eq])]

lemma evCount_graphiti_spawnInit (env : Env) :
    evCount isSpawnInit (graphitiStartupFrag env).events = 1 := by
  rw [graphitiStartupFrag_eq]; simp [evCount, isSpawnInit]

lemma evCount_graphiti_zero (env : Env) (p : Ev → Bool)
    (h1 : ∀ m, p (Ev.logInfo m) = false)
    (h2 : ∀ l m, p (Ev.spawnInit l m) = false) :
    evCount p (graphitiStartupFrag env).events = 0 := by
  rw [graphitiStartupFrag_eq]; simp [evCount, h1, h2]

lemma evCount_sched_zero (env : Env) (sb : CallResult) (p : Ev → Bool)
    (h1 : ∀ m, p (Ev.logInfo m) = false)
    (h2 : ∀ m, p (Ev.logError m) = false)
    (h3 : p Ev.callStart = false) :
    evCount p (schedulerStartupFrag env sb).events = 0 := by
  cases sb <;>
    simp [schedulerStartupFrag, pyTry, Frag.seq, emit, extCall, Frag.nil] <;>
    split <;> simp [evCount, h1, h2, h3]

lemma evCount_sched_callStart (env : Env) (sb : CallResult) :
    evCount isCallStart (schedulerStartupFrag env sb).events =
      if enable_sync_scheduler env then 1 else 0 := by
  cases sb <;>
    simp [schedulerStartupFrag, pyTry, Frag.seq, emit, extCall, Frag.nil] <;>
    split <;> simp [evCount, isCallStart]

lemma evCount_shutdown_callStop (c : Collabs) :
    evCount isCallStop (shutdownFrag c).events = 1 := by
  cases h : c.stopBeh with
  | ok => rw [shutdownFrag_eq_ok c h]; simp [evCount, isCallStop]
  | raises e => rw [shutdownFrag_eq_raises c e h]; simp [evCount, isCallStop]

lemma evCount_shutdown_zero (c : Collabs) (p : Ev → Bool)
    (h1 : ∀ m, p (Ev.logInfo m) = false)
    (h2 : ∀ m, p (Ev.logError m) = false)
    (h3 : p Ev.callStop = false) :
    evCount p (shutdownFrag c).events = 0 := by
  cases h : c.stopBeh with
  | ok => rw [shutdownFrag_eq_ok c h]; simp [evCount, h1, h3]
  | raises e => rw [shutdownFrag_eq_raises c e h]; simp [evCount, h1, h2, h3]

lemma evCount_task_callInit (load : Bool) (mode : String) (beh : InitBeh) :
    evCount isCallInit (initialize_graphiti load mode beh).events = 1 := by
  cases beh <;> cases load <;>
    simp [initialize_graphiti, graphiti_init_call, evCount, evCount_append, isCallInit]

lemma evCount_task_zero (load : Bool) (mode : String) (beh : InitBeh) (p : Ev → Bool)
    (h1 : ∀ m, p (Ev.logInfo m) = false)
    (h2 : ∀ m, p (Ev.logError m) = false)
    (h3 : ∀ l m, p (Ev.callGraphitiInit l m) = false) :
    evCount p (initialize_graphiti load mode beh).events = 0 := by
  cases beh <;> cases load <;>
    simp [initialize_graphiti, graphiti_init_call, evCount, evCount_append, h1, h2, h3]

lemma evCount_startup (s : Settings) (env : Env) (c : Collabs) (p : Ev → Bool) :
    evCount p (startupFrag s env c).events =
      evCount p (bannerEvents s) + (evCount p (graphitiStartupFrag env).events +
      evCount p (schedulerStartupFrag env c.startBeh).events) := by
  rw [startupFrag_events, evCount_append, evCount_append]

lemma evCount_process (s : Settings) (env : Env) (c : Collabs) (p : Ev → Bool) :
    evCount p (processFrag s env c).events =
      evCount p (startupFrag s env c).events + evCount p (shutdownFrag c).events := by
  rw [processFrag_events, evCount_append]

lemma processFrag_exn (s : Settings) (env : Env) (c : Collabs) :
    (processFrag s env c).exn = none := by
  rw [processFrag, Frag.seq_exn _ _ (startupFrag_exn s env c)]
  exact shutdownFrag_exn c

/-! ## Claims -/

/-- C1: For every configuration, the startup sequence reaches the
serving-ready point (the lifespan yield) without waiting on completion of
the detached initialize task: the pre-yield fragment never raises, and it
is unchanged even when the initializer never returns (the spawn on wiki.py
line 56 is never awaited before the yield). -/
theorem c1_serving_ready_never_blocks_on_initialize
    (s : Settings) (env : Env) (i : InitBeh) (sb st : CallResult) :
    (startupFrag s env ⟨i, sb, st⟩).exn = none ∧
    startupFrag s env ⟨i, sb, st⟩ =
      startupFrag s env ⟨InitBeh.neverReturns, sb, st⟩ :=
  ⟨startupFrag_exn s env ⟨i, sb, st⟩, rfl⟩

/-- C2: Every error the external initializer raises is caught at the
`initialize_graphiti` boundary (wiki.py lines 91-94), turned into a logged
failure, and never escapes; the main control path still reaches
serving-ready for any configuration. -/
theorem c2_initializer_failure_contained
    (s : Settings) (env : Env) (c : Collabs) (load : Bool) (mode e : String) :
    (∀ beh, (initialize_graphiti load mode beh).exn = none) ∧
    (initialize_graphiti load mode (InitBeh.raises e)).completed = true ∧
    Ev.logError ("Graphiti initialization failed: " ++ e) ∈
      (initialize_graphiti load mode (InitBeh.raises e)).events ∧
    (startupFrag s env c).exn = none := by
  refine ⟨initialize_graphiti_exn load mode, ?_, ?_, startupFrag_exn s env c⟩
  · cases load <;> simp [initialize_graphiti, graphiti_init_call]
  · cases load <;> simp [initialize_graphiti, graphiti_init_call]

/-- C3: For every configuration and collaborator behaviour, the initializer
is spawned exactly once per process lifetime, its external call happens
exactly once (never re-invoked regardless of outcome), and the call never
occurs on the synchronous startup path. -/
theorem c3_initialize_invoked_once_detached
    (s : Settings) (env : Env) (c : Collabs) :
    evCount isSpawnInit (fullTrace s env c) = 1 ∧
    evCount isCallInit (fullTrace s env c) = 1 ∧
    evCount isCallInit (processFrag s env c).events = 0 := by
  have hcall_p : evCount isCallInit (processFrag s env c).events = 0 := by
    rw [evCount_process, evCount_startup,
      evCount_banner_zero _ _ (fun m => rfl) (fun m => rfl),
      evCount_graphiti_zero _ _ (fun m => rfl) (fun l m => rfl),
      evCount_sched_zero _ _ _ (fun m => rfl) (fun m => rfl) rfl,
      evCount_shutdown_zero _ _ (fun m => rfl) (fun m => rfl) rfl]
  refine ⟨?_, ?_, hcall_p⟩
  · rw [fullTrace, evCount_append, evCount_process, evCount_startup,
      evCount_banner_zero _ _ (fun m => rfl) (fun m => rfl),
      evCount_graphiti_spawnInit,
      evCount_sched_zero _ _ _ (fun m => rfl) (fun m => rfl) rfl,
      evCount_shutdown_zero _ _ (fun m => rfl) (fun m => rfl) rfl,
      evCount_task_zero _ _ _ _ (fun m => rfl) (fun m => rfl) (fun l m => rfl)]
  · rw [fullTrace, evCount_append, hcall_p, evCount_task_callInit]

/-- C4: For every configuration, the scheduler stop call happens exactly
once during shutdown; and when the scheduler flag is disabled, start is
never invoked at all. -/
theorem c4_stop_invoked_exactly_once
    (s : Settings) (env : Env) (c : Collabs) :
    evCount isCallStop (processFrag s env c).events = 1 ∧
    (enable_sync_scheduler env = false →
      evCount isCallStart (processFrag s env c).events = 0) := by
  constructor
  · rw [evCount_process, evCount_startup,
      evCount_banner_zero _ _ (fun m => rfl) (fun m => rfl),
      evCount_graphiti_zero _ _ (fun m => rfl) (fun l m => rfl),
      evCount_sched_zero _ _ _ (fun m => rfl) (fun m => rfl) rfl,
      evCount_shutdown_callStop]
  · intro h
    rw [evCount_process, evCount_startup,
      evCount_banner_zero _ _ (fun m => rfl) (fun m => rfl),
      evCount_graphiti_zero _ _ (fun m => rfl) (fun l m => rfl),
      evCount_sched_callStart,
      evCount_shutdown_zero _ _ (fun m => rfl) (fun m => rfl) rfl, h]
    simp

/-- C4 witness: at the all-defaults configuration with all collaborators
succeeding, stop happens once and start never happens. -/
theorem c4_stop_invoked_exactly_once_witness :
    evCount isCallStop (processFrag
      ⟨"", false, "", "", "", ""⟩ ⟨none, none, none⟩
      ⟨InitBeh.ok, CallResult.ok, CallResult.ok⟩).events = 1 ∧
    evCount isCallStart (processFrag
      ⟨"", false, "", "", "", ""⟩ ⟨none, none, none⟩
      ⟨InitBeh.ok, CallResult.ok, CallResult.ok⟩).events = 0 :=
  ⟨(c4_stop_invoked_exactly_once ⟨"", false, "", "", "", ""⟩ ⟨none, none, none⟩
      ⟨InitBeh.ok, CallResult.ok, CallResult.ok⟩).1,
   (c4_stop_invoked_exactly_once ⟨"", false, "", "", "", ""⟩ ⟨none, none, none⟩
      ⟨InitBeh.ok, CallResult.ok, CallResult.ok⟩).2 (by decide)⟩

/-- C5: If the scheduler stop raises during shutdown, the error is caught
and logged, stop still happened exactly once, and the shutdown fragment
(and the whole process run) completes without a propagating exception. -/
theorem c5_stop_failure_logged_nonfatal
    (s : Settings) (env : Env) (i : InitBeh) (sb : CallResult) (e : String) :
    (shutdownFrag ⟨i, sb, CallResult.raises e⟩).exn = none ∧
    Ev.logError ("Error stopping sync scheduler: " ++ e) ∈
      (shutdownFrag ⟨i, sb, CallResult.raises e⟩).events ∧
    evCount isCallStop (shutdownFrag ⟨i, sb, CallResult.raises e⟩).events = 1 ∧
    (processFrag s env ⟨i, sb, CallResult.raises e⟩).exn = none := by
  rw [shutdownFrag_eq_raises _ e rfl]
  exact ⟨rfl, by simp, by simp [evCount, isCallStop],
    processFrag_exn s env ⟨i, sb, CallResult.raises e⟩⟩

lemma load_initial_data_false_of_unset_or_false (env : Env)
    (h : env.LOAD_INITIAL_DATA = none ∨ env.LOAD_INITIAL_DATA = some "false") :
    load_initial_data env = false := by
  rcases h with h | h <;> simp [load_initial_data, getenv, h] <;> decide

lemma enable_sync_scheduler_false_of_unset_or_false (env : Env)
    (h : env.ENABLE_SYNC_SCHEDULER = none ∨ env.ENABLE_SYNC_SCHEDULER = some "false") :
    enable_sync_scheduler env = false := by
  rcases h with h | h <;> simp [enable_sync_scheduler, getenv, h] <;> decide

/-- C6: when LOAD_INITIAL_DATA and ENABLE_SYNC_SCHEDULER are each unset or
the literal "false", the process reaches serving-ready, the scheduler
start is never invoked, and the one initializer spawn carries a false
load-initial-data flag (intent skip: no bulk load requested). -/
theorem c6_default_config_no_mutations
    (s : Settings) (env : Env) (c : Collabs)
    (hload : env.LOAD_INITIAL_DATA = none ∨ env.LOAD_INITIAL_DATA = some "false")
    (hsched : env.ENABLE_SYNC_SCHEDULER = none ∨
      env.ENABLE_SYNC_SCHEDULER = some "false") :
    (startupFrag s env c).exn = none ∧
    evCount isCallStart (processFrag s env c).events = 0 ∧
    Ev.spawnInit false (sync_mode env) ∈ (startupFrag s env c).events ∧
    load_initial_data env = false := by
  have hl := load_initial_data_false_of_unset_or_false env hload
  have he := enable_sync_scheduler_false_of_unset_or_false env hsched
  refine ⟨startupFrag_exn s env c, ?_, ?_, hl⟩
  · rw [evCount_process, evCount_startup,
      evCount_banner_zero _ _ (fun m => rfl) (fun m => rfl),
      evCount_graphiti_zero _ _ (fun m => rfl) (fun l m => rfl),
      evCount_sched_callStart,
      evCount_shutdown_zero _ _ (fun m => rfl) (fun m => rfl) rfl, he]
    simp
  · rw [startupFrag_events, graphitiStartupFrag_eq, ← hl]
    simp

/-- C6 witness: the all-unset environment. -/
theorem c6_default_config_no_mutations_witness :
    (startupFrag ⟨"", false, "", "", "", ""⟩ ⟨none, none, none⟩
      ⟨InitBeh.ok, CallResult.ok, CallResult.ok⟩).exn = none ∧
    evCount isCallStart (processFrag ⟨"", false, "", "", "", ""⟩
      ⟨none, none, none⟩ ⟨InitBeh.ok, CallResult.ok, CallResult.ok⟩).events = 0 ∧
    Ev.spawnInit false (sync_mode ⟨none, none, none⟩) ∈
      (startupFrag ⟨"", false, "", "", "", ""⟩ ⟨none, none, none⟩
        ⟨InitBeh.ok, CallResult.ok, CallResult.ok⟩).events ∧
    load_initial_data ⟨none, none, none⟩ = false :=
  c6_default_config_no_mutations ⟨"", false, "", "", "", ""⟩ ⟨none, none, none⟩
    ⟨InitBeh.ok, CallResult.ok, CallResult.ok⟩ (Or.inl rfl) (Or.inl rfl)

/-- C7: when the scheduler flag is enabled and start raises, the error is
caught and logged (wiki.py lines 67-68) and startup still reaches the
serving-ready yield. -/
theorem c7_start_failure_logged_nonfatal
    (s : Settings) (env : Env) (i : InitBeh) (st : CallResult) (e : String)
    (h : enable_sync_scheduler env = true) :
    (startupFrag s env ⟨i, CallResult.raises e, st⟩).exn = none ∧
    Ev.logError ("Failed to start sync scheduler: " ++ e) ∈
      (startupFrag s env ⟨i, CallResult.raises e, st⟩).events := by
  refine ⟨startupFrag_exn _ _ _, ?_⟩
  rw [startupFrag_events]
  have hs : (schedulerStartupFrag env (CallResult.raises e)).events =
      [Ev.logInfo "Starting data sync scheduler...", Ev.callStart,
       Ev.logError ("Failed to start sync scheduler: " ++ e)] := by
    simp [schedulerStartupFrag, h, pyTry, Frag.seq, emit, extCall]
  rw [hs]
  simp

/-- C7 witness: ENABLE_SYNC_SCHEDULER set to "true" and a raising start. -/
theorem c7_start_failure_logged_nonfatal_witness :
    (startupFrag ⟨"", false, "", "", "", ""⟩ ⟨none, none, some "true"⟩
      ⟨InitBeh.ok, CallResult.raises "boom", CallResult.ok⟩).exn = none ∧
    Ev.logError ("Failed to start sync scheduler: " ++ "boom") ∈
      (startupFrag ⟨"", false, "", "", "", ""⟩ ⟨none, none, some "true"⟩
        ⟨InitBeh.ok, CallResult.raises "boom", CallResult.ok⟩).events :=
  c7_start_failure_logged_nonfatal ⟨"", false, "", "", "", ""⟩
    ⟨none, none, some "true"⟩ InitBeh.ok CallResult.ok "boom" (by decide)

/-- C8: triggering the shutdown transition twice has the same observable
effect as triggering it once: the async generator is exhausted after the
first trigger, the second emits nothing, and only one stop call occurs. -/
theorem c8_shutdown_trigger_idempotent (c : Collabs) :
    (triggerShutdown c (triggerShutdown c false).1).2 = [] ∧
    (triggerShutdown c false).2 ++ (triggerShutdown c (triggerShutdown c false).1).2 =
      (triggerShutdown c false).2 ∧
    evCount isCallStop ((triggerShutdown c false).2 ++
      (triggerShutdown c (triggerShutdown c false).1).2) = 1 := by
  refine ⟨rfl, by simp [triggerShutdown], ?_⟩
  show evCount isCallStop ((shutdownFrag c).events ++ []) = 1
  rw [evCount_append, evCount_shutdown_callStop]
  rfl

/-- C9 counterexample: with SYNC_MODE set to the unrecognized value
"banana", the selected sync mode is "banana" itself — the code passes an
unrecognized value through instead of falling back to the documented
default "initial". -/
theorem c9_counterexample_unrecognized_sync_mode :
    sync_mode ⟨some "true", some "banana", none⟩ = "banana" ∧
    sync_mode ⟨some "true", some "banana", none⟩ ≠ "initial" ∧
    sync_mode ⟨some "true", some "banana", none⟩ ≠ "live" ∧
    load_initial_data ⟨some "true", some "banana", none⟩ = true := by
  refine ⟨rfl, by decide, by decide, by decide⟩

/-- C9 (amended): startup-intent selection is pure and total and never
fails; a missing or unrecognized LOAD_INITIAL_DATA falls back to false
(intent skip), a missing SYNC_MODE falls back to the default "initial",
but a set SYNC_MODE value is passed through unchanged without validation
(an unrecognized value is not replaced by the default). -/
theorem c9_amended_selection_defaults
    (l sm es : Option String) (v w : String) (hv : pyLower v ≠ "true") :
    load_initial_data ⟨none, sm, es⟩ = false ∧
    load_initial_data ⟨some v, sm, es⟩ = false ∧
    sync_mode ⟨l, none, es⟩ = "initial" ∧
    sync_mode ⟨l, some w, es⟩ = w := by
  refine ⟨?_, ?_, rfl, rfl⟩
  · simp only [load_initial_data, getenv, Option.getD]
    decide
  · simp only [load_initial_data, getenv, Option.getD]
    simp [hv]

/-- C9 witness: LOAD_INITIAL_DATA set to the unrecognized "1" parses
false, and the other defaults at concrete inputs. -/
theorem c9_amended_selection_defaults_witness :
    load_initial_data ⟨none, some "initial", none⟩ = false ∧
    load_initial_data ⟨some "1", some "initial", none⟩ = false ∧
    sync_mode ⟨some "1", none, none⟩ = "initial" ∧
    sync_mode ⟨some "1", some "live", none⟩ = "live" :=
  c9_amended_selection_defaults (some "1") (some "initial") none "1" "live"
    (by decide)

/-- C10: a boolean environment flag is enabled iff its value equals the
literal "true" case-insensitively; representative other values ("1",
"yes", a value with surrounding whitespace) parse false, and case
variants of "true" parse true. -/
theorem c10_bool_flag_iff_true_case_insensitive
    (sm es ld : Option String) (v : String) :
    (load_initial_data ⟨some v, sm, es⟩ = true ↔
      eqCaseInsensitive v "true" = true) ∧
    (enable_sync_scheduler ⟨ld, sm, some v⟩ = true ↔
      eqCaseInsensitive v "true" = true) ∧
    load_initial_data ⟨some "1", sm, es⟩ = false ∧
    load_initial_data ⟨some "yes", sm, es⟩ = false ∧
    load_initial_data ⟨some " true ", sm, es⟩ = false ∧
    load_initial_data ⟨some "TRUE", sm, es⟩ = true ∧
    load_initial_data ⟨some "tRuE", sm, es⟩ = true ∧
    enable_sync_scheduler ⟨ld, sm, some "yes"⟩ = false ∧
    enable_sync_scheduler ⟨ld, sm, some "True"⟩ = true := by
  have hlit : pyLower "true" = "true" := by decide
  refine ⟨?_, ?_, ?_, ?_, ?_, ?_, ?_, ?_, ?_⟩ <;>
    simp only [load_initial_data, enable_sync_scheduler, getenv, Option.getD,
      eqCaseInsensitive, hlit] <;>
    decide
